import Mathlib

/-!
# Verification of the Concerto runtime object validator

A shallow embedding of the Concerto runtime type-checker: a namespaced
registry of declared types (concepts, participants, enums), JSON-like
instance values tagged with qualified type names, and the recursive
object validator that checks an instance against a declaration.

The validator implementation itself is not part of the provided sources
(only its test suites are), so the engine below is modelled from the
specification, with the concrete error-message shapes taken from the
observable behaviour recorded in the test suites.
-/

namespace Concerto

/-! ## String helpers (structural, over character lists) -/

/-- Boolean test that `p` occurs at the start of `s` (as character lists). -/
def listStartsWith : List Char → List Char → Bool
  | [], _ => true
  | _ :: _, [] => false
  | a :: as, b :: bs => a == b && listStartsWith as bs

/-- Boolean test that `pat` occurs somewhere inside `s` (as character lists). -/
def listOccursIn (pat : List Char) : List Char → Bool
  | [] => listStartsWith pat []
  | c :: rest => listStartsWith pat (c :: rest) || listOccursIn pat rest

/-- `strContains s pat` is true when `pat` occurs as a contiguous substring of `s`. -/
def strContains (s pat : String) : Bool := listOccursIn pat.data s.data

/-- Split a character list on a separator character. -/
def splitOnCh (sep : Char) : List Char → List (List Char)
  | [] => [[]]
  | c :: rest =>
    let r := splitOnCh sep rest
    if c == sep then [] :: r
    else
      match r with
      | [] => [[c]]
      | h :: t => (c :: h) :: t

/-- Join character lists with a dot between consecutive pieces. -/
def joinDots : List (List Char) → List Char
  | [] => []
  | [x] => x
  | x :: rest => x ++ '.' :: joinDots rest

/-- The short (unqualified) name of a qualified type name: the part after the
last dot (`shortName "test.Wheel" = "Wheel"`). -/
def shortName (q : String) : String := ⟨(splitOnCh '.' q.data).getLastD []⟩

/-- The namespace part of a qualified type name: everything before the last
dot (`namespaceOf "test.Wheel" = "test"`). -/
def namespaceOf (q : String) : String := ⟨joinDots ((splitOnCh '.' q.data).dropLast)⟩

/-- Parse an addressable reference string `scheme:QualifiedType#identifier`
into its three components; `none` when the string is not of that shape. -/
def parseReference (s : String) : Option (String × String × String) :=
  match splitOnCh ':' s.data with
  | [scheme, rest] =>
    match splitOnCh '#' rest with
    | [qt, ident] => some (⟨scheme⟩, ⟨qt⟩, ⟨ident⟩)
    | _ => none
  | _ => none

/-- `listStartsWith` holds of a list prefixed by the pattern. -/
theorem listStartsWith_append (p r : List Char) :
    listStartsWith p (p ++ r) = true := by
  induction p with
  | nil => rfl
  | cons a as ih => simp [listStartsWith, ih]

/-- The pattern occurs in any list it prefixes. -/
theorem listOccursIn_here (p r : List Char) : listOccursIn p (p ++ r) = true := by
  cases p with
  | nil =>
    cases r with
    | nil => rfl
    | cons x xs => simp [listOccursIn, listStartsWith]
  | cons a as =>
    simp [listOccursIn, listStartsWith, listStartsWith_append]

/-- Occurrence survives prepending characters in front. -/
theorem listOccursIn_prepend (p xs t : List Char)
    (h : listOccursIn p t = true) : listOccursIn p (xs ++ t) = true := by
  induction xs with
  | nil => simpa using h
  | cons x rest ih => simp [listOccursIn, ih]

/-- A string contains any pattern it starts with. -/
theorem strContains_here (p r : String) : strContains (p ++ r) p = true := by
  simpa [strContains, String.data_append] using listOccursIn_here p.data r.data

/-- Containment survives prepending a string in front. -/
theorem strContains_prepend (x s pat : String)
    (h : strContains s pat = true) : strContains (x ++ s) pat = true := by
  simpa [strContains, String.data_append] using
    listOccursIn_prepend pat.data x.data s.data h

/-- A string contains its own suffix. -/
theorem strContains_suffix (s t : String) : strContains (s ++ t) t = true := by
  have h := strContains_here t ""
  rw [String.append_empty] at h
  exact strContains_prepend s t t h

/-- A prefix relation survives appending characters at the end. -/
theorem listStartsWith_extend (p t y : List Char)
    (h : listStartsWith p t = true) : listStartsWith p (t ++ y) = true := by
  induction p generalizing t with
  | nil => rfl
  | cons a as ih =>
    cases t with
    | nil => simp [listStartsWith] at h
    | cons b bs =>
      simp [listStartsWith] at h ⊢
      exact ⟨h.1, ih bs h.2⟩

/-- The empty pattern occurs in every list. -/
theorem listOccursIn_empty (t : List Char) : listOccursIn [] t = true := by
  cases t <;> simp [listOccursIn, listStartsWith]

/-- Occurrence survives appending characters at the end. -/
theorem listOccursIn_extend (p t y : List Char)
    (h : listOccursIn p t = true) : listOccursIn p (t ++ y) = true := by
  induction t with
  | nil =>
    have hp : p = [] := by
      cases p with
      | nil => rfl
      | cons a as => simp [listOccursIn, listStartsWith] at h
    rw [hp]
    exact listOccursIn_empty ([] ++ y)
  | cons c rest ih =>
    simp only [listOccursIn, Bool.or_eq_true] at h ⊢
    cases h with
    | inl h1 => exact Or.inl (listStartsWith_extend _ _ _ h1)
    | inr h2 => exact Or.inr (ih h2)

/-- Containment survives appending a string at the end. -/
theorem strContains_extend (s y pat : String)
    (h : strContains s pat = true) : strContains (s ++ y) pat = true := by
  simpa [strContains, String.data_append] using
    listOccursIn_extend pat.data s.data y.data h

/-! ## The declaration model and the type registry

Modelled from the spec: the Declaration Model and Type Registry components
(the `modelmanager` / class-declaration sources are not in the provided
tree). A declared type is a named, namespaced declaration, either an
enumeration or a class with optional single-inheritance parent, optional
identity metadata, and a list of property declarations. -/

/-- The primitive property kinds of the modelling language. -/
inductive PrimKind where
  | pString
  | pInteger
  | pBoolean
  | pDateTime
  | pDouble
  | pLong
deriving DecidableEq, Repr

/-- The displayed name of a primitive kind, as it appears in error messages. -/
def primName : PrimKind → String
  | .pString => "String"
  | .pInteger => "Integer"
  | .pBoolean => "Boolean"
  | .pDateTime => "DateTime"
  | .pDouble => "Double"
  | .pLong => "Long"

/-- The kind of a declared property: primitive, enum reference, nested
declared-type (concept) reference, or relationship reference. References
are by qualified type name. -/
inductive PropType where
  | prim (k : PrimKind)
  | enumRef (target : String)
  | classRef (target : String)
  | relRef (target : String)
deriving DecidableEq, Repr

/-- A property declaration: name, kind, cardinality flag, optionality flag,
and an optional regex validator (a literal pattern, applicable to
string-kind properties). -/
structure PropDecl where
  name : String
  ptype : PropType
  isArray : Bool := false
  isOptional : Bool := false
  regexValidator : Option String := none
deriving DecidableEq, Repr

/-- The body of a declared type: an enumeration with its literal members, or
a class with an optional parent (qualified name), optional identifying
property name, and its own (non-inherited) properties. -/
inductive DeclBody where
  | enumDecl (members : List String)
  | classDecl (superType : Option String) (identifiedBy : Option String)
      (props : List PropDecl)
deriving DecidableEq, Repr

/-- A declared type: namespace, short name and body. -/
structure TypeDecl where
  ns : String
  name : String
  body : DeclBody
deriving DecidableEq, Repr

/-- The globally unique qualified name `namespace.TypeName` of a declaration. -/
def TypeDecl.qname (d : TypeDecl) : String := d.ns ++ "." ++ d.name

/-- The type registry: all declared types across namespaces. -/
structure Registry where
  decls : List TypeDecl
deriving DecidableEq, Repr

/-- `resolve` looks a qualified name up in the registry; exact match only. -/
def resolve (reg : Registry) (q : String) : Option TypeDecl :=
  reg.decls.find? (fun d => d.qname == q)

/-- The direct parent (qualified name) of a declaration, when it has one. -/
def TypeDecl.superOf : TypeDecl → Option String
  | ⟨_, _, .classDecl s _ _⟩ => s
  | ⟨_, _, .enumDecl _⟩ => none

/-- The properties declared directly on a declaration. -/
def TypeDecl.ownProps : TypeDecl → List PropDecl
  | ⟨_, _, .classDecl _ _ ps⟩ => ps
  | ⟨_, _, .enumDecl _⟩ => []

/-- The identifying-property name declared directly on a declaration. -/
def TypeDecl.ownIdentifiedBy : TypeDecl → Option String
  | ⟨_, _, .classDecl _ i _⟩ => i
  | ⟨_, _, .enumDecl _⟩ => none

/-- Fuelled walk of the single-inheritance chain for the reflexive-transitive
derived-from test: `candidate` is derived from `target` when they are
equal or the candidate's parent chain reaches `target`. -/
def derivesAux (reg : Registry) : Nat → String → String → Bool
  | 0, _, _ => false
  | fuel + 1, c, t =>
    c == t ||
      match resolve reg c with
      | some d =>
        match d.superOf with
        | some s => derivesAux reg fuel s t
        | none => false
      | none => false

/-- `isDerivedFrom` (reflexive, transitive over single inheritance), by
qualified names; the fuel is bounded by the registry size. -/
def derives (reg : Registry) (c t : String) : Bool :=
  derivesAux reg (reg.decls.length + 1) c t

/-- Fuelled walk of the inheritance chain collecting all properties, own
properties first, then inherited ones. -/
def allPropsAux (reg : Registry) : Nat → TypeDecl → List PropDecl
  | 0, _ => []
  | fuel + 1, d =>
    d.ownProps ++
      (match d.superOf with
       | some s =>
         match resolve reg s with
         | some sd => allPropsAux reg fuel sd
         | none => []
       | none => [])

/-- All properties of a declaration, inherited ones included. -/
def allProps (reg : Registry) (d : TypeDecl) : List PropDecl :=
  allPropsAux reg (reg.decls.length + 1) d

/-- Fuelled walk of the inheritance chain for the identifying property. -/
def identifiedByAux (reg : Registry) : Nat → TypeDecl → Option String
  | 0, _ => none
  | fuel + 1, d =>
    match d.ownIdentifiedBy with
    | some i => some i
    | none =>
      match d.superOf with
      | some s =>
        match resolve reg s with
        | some sd => identifiedByAux reg fuel sd
        | none => none
      | none => none

/-- The identifying-property name of a declaration, inherited if necessary. -/
def identifiedByOf (reg : Registry) (d : TypeDecl) : Option String :=
  identifiedByAux reg (reg.decls.length + 1) d

/-- A declaration is identifiable when it (or an ancestor) declares an
identifying property. -/
def isIdentifiable (reg : Registry) (d : TypeDecl) : Bool :=
  (identifiedByOf reg d).isSome

/-! ## Instances -/

/-- A JSON-like runtime instance value: the dynamic categories a JavaScript
value can take during validation. Object-shaped nodes carry the tagged
qualified type name and their property fields. -/
inductive Value where
  | vString (s : String)
  | vNum (n : Int)
  | vBool (b : Bool)
  | vDateTime (iso : String)
  | vSymbol (descr : String)
  | vNull
  | vObject (tag : String) (fields : List (String × Value))
  | vArray (elems : List Value)

mutual

/-- Structural nesting depth of a value (strings and numbers count one). -/
def Value.depth : Value → Nat
  | .vObject _ fs => 1 + depthFields fs
  | .vArray es => 1 + depthElems es
  | _ => 1

/-- Greatest depth among an object's field values. -/
def depthFields : List (String × Value) → Nat
  | [] => 0
  | (_, v) :: rest => max v.depth (depthFields rest)

/-- Greatest depth among an array's elements. -/
def depthElems : List Value → Nat
  | [] => 0
  | v :: rest => max v.depth (depthElems rest)

end

/-- Look a property name up among an object's fields. -/
def lookupField : List (String × Value) → String → Option Value
  | [], _ => none
  | (n, v) :: rest, name => if n == name then some v else lookupField rest name

/-- Boolean test that a value is array-shaped. -/
def Value.isArrayValue : Value → Bool
  | .vArray _ => true
  | _ => false

/-! ## Errors

Modelled from the spec: the error taxonomy of §7, with the concrete message
shapes taken from the behaviour recorded in the ObjectValidator test suite
(the validator wires an `undefined` instance identifier into the derived-from
message shapes when no identifier is available). -/

/-- A structured validation error. -/
inductive VError where
  /-- An unknown qualified type name (short name, namespace sought in). -/
  | typeNotFound (typeName ns : String)
  /-- Class-level substitutability failure: instance tag not derived from
  the expected declaration. -/
  | notDerivedInstance (actual expected : String)
  /-- Property-level substitutability failure: the value's type is not
  derived from the property's declared target. -/
  | notDerivedProperty (propName actual expected : String)
  /-- Array-declared (non-relationship) property given a non-array value. -/
  | cardinalityMismatch (propName expectedType : String)
  /-- Array-declared relationship property given a non-array value. -/
  | relCardinalityMismatch (propName expectedType : String)
  /-- A value whose runtime kind disagrees with the declared kind. -/
  | typeMismatch (propName expectedType : String)
  /-- A required property missing from the instance. -/
  | missingRequired (propName : String)
  /-- A property present on the instance but not declared (strict mode). -/
  | unknownProperty (propName : String)
  /-- A field validator (regex) the value failed to match. -/
  | validatorFailed (propName pattern : String)
  /-- A relationship value that is neither a reference nor a permitted
  inline resource. -/
  | invalidRelationshipEncoding (propName : String)
  /-- A relationship to a type that is not identifiable. -/
  | nonIdentifiableTarget (propName : String)
  /-- A value that is not a member of the declared enumeration. -/
  | enumValueInvalid (propName : String)
  /-- Traversal fuel exhausted (never reached from `validate`). -/
  | outOfFuel
deriving DecidableEq, Repr

/-- The human-readable message carried by an error. -/
def VError.message : VError → String
  | .typeNotFound t n => "Type " ++ t ++ " is not defined in namespace " ++ n
  | .notDerivedInstance a e =>
      "Instance undefined of type " ++ a ++ " is not derived from type " ++ e
  | .notDerivedProperty p a e =>
      "Instance undefined has property " ++ p ++ " with type " ++ a ++
        " that is " ++ "not derived from " ++ e
  | .cardinalityMismatch p t =>
      "Instance undefined has property " ++ p ++
        " with an invalid value, " ++ "expected type " ++ t ++ "[]"
  | .relCardinalityMismatch p t =>
      "Instance undefined has property " ++ p ++
        " with type undefined that is " ++ "not derived from " ++ t ++ "[]"
  | .typeMismatch p t =>
      "Instance undefined has property " ++ p ++
        " with an invalid value, " ++ "expected type " ++ t
  | .missingRequired p =>
      "Instance undefined has a missing required property " ++ p ++
        ", expected property, got none"
  | .unknownProperty p =>
      "Instance undefined has a property " ++ p ++ " that is not declared"
  | .validatorFailed p pat =>
      "Instance undefined has property " ++ p ++
        " that " ++ "failed to match validation regex: /" ++ pat ++ "/"
  | .invalidRelationshipEncoding p =>
      "Instance undefined has property " ++ p ++ ", " ++
        "expected a Relationship"
  | .nonIdentifiableTarget p =>
      "Instance undefined has property " ++ p ++ ": " ++
        "Relationship can only be to identified types"
  | .enumValueInvalid p =>
      "Instance undefined has property " ++ p ++ " with an invalid enum value"
  | .outOfFuel => "traversal fuel exhausted"

/-- Boolean test that an error reports an array/scalar cardinality mismatch. -/
def VError.isCardinality : VError → Bool
  | .cardinalityMismatch _ _ => true
  | .relCardinalityMismatch _ _ => true
  | _ => false

/-! ## The validation engine

Modelled from the spec: the recursive `ObjectValidator` visitor (its source
is not in the provided tree; only its test suite is). The engine follows
§4.2–§4.5 of the specification, with message shapes from the test suite.
Regex validators are modelled for literal patterns, matched unanchored as
substring occurrence, as a JavaScript literal regex matches. -/

/-- Validation options: the single recognized flag. -/
structure Options where
  permitResourcesForRelationships : Bool := false
deriving DecidableEq, Repr

/-- The scalar type name a property expects, as used in messages
(`TestEnum`, `String`, ...; short names for enum and concept targets). -/
def scalarTypeName : PropType → String
  | .prim k => primName k
  | .enumRef q => shortName q
  | .classRef q => shortName q
  | .relRef q => q

/-- Exact runtime-representation check for a primitive kind (§4.3). -/
def checkPrimitiveKind : PrimKind → Value → Bool
  | .pString, .vString _ => true
  | .pInteger, .vNum _ => true
  | .pLong, .vNum _ => true
  | .pDouble, .vNum _ => true
  | .pBoolean, .vBool _ => true
  | .pDateTime, .vDateTime _ => true
  | _, _ => false

/-- Check one scalar item of a non-relationship property (§4.3, §4.4):
primitive representation plus regex validator, enum membership, or nested
concept resolution, substitutability and recursion (through `recurse`). -/
def checkItem (recurse : TypeDecl → Value → Except VError Unit)
    (reg : Registry) (prop : PropDecl) (v : Value) : Except VError Unit :=
  match prop.ptype with
  | .prim k =>
    if checkPrimitiveKind k v then
      match k, prop.regexValidator, v with
      | .pString, some pat, .vString s =>
        if strContains s pat then .ok ()
        else .error (.validatorFailed prop.name pat)
      | _, _, _ => .ok ()
    else .error (.typeMismatch prop.name (primName k))
  | .enumRef q =>
    match resolve reg q with
    | none => .error (.typeNotFound (shortName q) (namespaceOf q))
    | some d =>
      match d.body with
      | .enumDecl members =>
        match v with
        | .vString s =>
          if members.contains s then .ok ()
          else .error (.enumValueInvalid prop.name)
        | _ => .error (.enumValueInvalid prop.name)
      | .classDecl _ _ _ => .error (.typeMismatch prop.name (shortName q))
  | .classRef q =>
    match v with
    | .vObject tag _ =>
      match resolve reg tag with
      | none => .error (.typeNotFound (shortName tag) (namespaceOf tag))
      | some d =>
        if derives reg tag q then recurse d v
        else .error (.notDerivedProperty prop.name tag q)
    | _ => .error (.typeMismatch prop.name (shortName q))
  | .relRef _ => .error (.invalidRelationshipEncoding prop.name)

/-- Check one relationship value (§4.5): reference form always, inline
resource form only under `permitResourcesForRelationships`. The referenced
or inline type must resolve, be identifiable, and be derived from the
property's declared target. -/
def checkRelationship (reg : Registry) (opts : Options) (prop : PropDecl)
    (target : String) (v : Value) : Except VError Unit :=
  match v with
  | .vString s =>
    match parseReference s with
    | some (_, qtype, _) =>
      match resolve reg qtype with
      | none => .error (.typeNotFound (shortName qtype) (namespaceOf qtype))
      | some d =>
        if isIdentifiable reg d then
          if derives reg qtype target then .ok ()
          else .error (.notDerivedProperty prop.name qtype target)
        else .error (.nonIdentifiableTarget prop.name)
    | none => .error (.invalidRelationshipEncoding prop.name)
  | .vObject tag _ =>
    if opts.permitResourcesForRelationships then
      match resolve reg tag with
      | none => .error (.typeNotFound (shortName tag) (namespaceOf tag))
      | some d =>
        if isIdentifiable reg d then
          if derives reg tag target then .ok ()
          else .error (.notDerivedProperty prop.name tag target)
        else .error (.nonIdentifiableTarget prop.name)
    else .error (.invalidRelationshipEncoding prop.name)
  | _ => .error (.invalidRelationshipEncoding prop.name)

/-- Check every element of a list, failing at the first violation. -/
def checkEach (f : Value → Except VError Unit) : List Value → Except VError Unit
  | [] => .ok ()
  | v :: rest =>
    match f v with
    | .ok () => checkEach f rest
    | .error e => .error e

/-- Check one declared property against its present value (§4.2 step 3):
relationship declarations dispatch to the relationship check (per element
when array-declared); other kinds enforce array cardinality and check each
item. -/
def checkProperty (recurse : TypeDecl → Value → Except VError Unit)
    (reg : Registry) (opts : Options) (prop : PropDecl) (v : Value) :
    Except VError Unit :=
  match prop.ptype with
  | .relRef q =>
    if prop.isArray then
      match v with
      | .vArray elems => checkEach (checkRelationship reg opts prop q) elems
      | _ => .error (.relCardinalityMismatch prop.name q)
    else checkRelationship reg opts prop q v
  | _ =>
    if prop.isArray then
      match v with
      | .vArray elems => checkEach (checkItem recurse reg prop) elems
      | _ => .error (.cardinalityMismatch prop.name (scalarTypeName prop.ptype))
    else checkItem recurse reg prop v

/-- Walk the declared property list: a missing value is an error exactly for
required properties; present values dispatch to `checkProperty`. -/
def checkProps (recurse : TypeDecl → Value → Except VError Unit)
    (reg : Registry) (opts : Options) (fields : List (String × Value)) :
    List PropDecl → Except VError Unit
  | [] => .ok ()
  | p :: rest =>
    match lookupField fields p.name with
    | none =>
      if p.isOptional then checkProps recurse reg opts fields rest
      else .error (.missingRequired p.name)
    | some v =>
      match checkProperty recurse reg opts p v with
      | .ok () => checkProps recurse reg opts fields rest
      | .error e => .error e

/-- First instance field whose name is not among the declared properties. -/
def findUndeclared (props : List PropDecl) :
    List (String × Value) → Option String
  | [] => none
  | (n, _) :: rest =>
    if props.any (fun p => p.name == n) then findUndeclared props rest
    else some n

/-- The class-level check of §4.2, fuelled for the recursion into nested
instances: resolve the instance's tag, check substitutability against the
expected declaration, reject undeclared fields, then check every declared
property of the resolved runtime type. -/
def visitDecl (reg : Registry) (opts : Options) :
    Nat → TypeDecl → Value → Except VError Unit
  | 0, _, _ => .error .outOfFuel
  | fuel + 1, decl, v =>
    match v with
    | .vObject tag fields =>
      match resolve reg tag with
      | none => .error (.typeNotFound (shortName tag) (namespaceOf tag))
      | some runtime =>
        if derives reg tag decl.qname then
          let props := allProps reg runtime
          match findUndeclared props fields with
          | some n => .error (.unknownProperty n)
          | none => checkProps (visitDecl reg opts fuel) reg opts fields props
        else .error (.notDerivedInstance tag decl.qname)
    | _ => .error (.typeMismatch "$class" decl.qname)

/-- Top-level validation of an instance against a declaration: the nesting
depth of the instance bounds the recursion, so the fuel never runs out. -/
def validate (reg : Registry) (opts : Options) (decl : TypeDecl) (v : Value) :
    Except VError Unit :=
  visitDecl reg opts v.depth decl v

/-! ## Instance addressing

Modelled from the spec: the standalone Instance Addressing utilities of the
`concerto` module (its source is not in the provided tree; only its test
suite is): extract the identifying value, compute the fully-qualified
identifier `Type#id`, and the addressable reference, the identifier
prefixed with the fixed scheme token `resource:`. -/

/-- The tagged qualified type name of an object-shaped instance. -/
def tagOf : Value → String
  | .vObject tag _ => tag
  | _ => ""

/-- The value of the identifying property of an identifiable instance:
resolve the tag, find the (possibly inherited) identifying property, and
read that field (an identifier is a string). -/
def getIdentifierValue (reg : Registry) (v : Value) : Option String :=
  match v with
  | .vObject tag fields =>
    match resolve reg tag with
    | some d =>
      match identifiedByOf reg d with
      | some pname =>
        match lookupField fields pname with
        | some (.vString s) => some s
        | _ => none
      | none => none
    | none => none
  | _ => none

/-- The fully-qualified identifier `QualifiedType#identifier`. -/
def getFullyQualifiedIdentifier (reg : Registry) (v : Value) : Option String :=
  match v, getIdentifierValue reg v with
  | .vObject tag _, some id => some (tag ++ "#" ++ id)
  | _, _ => none

/-- The addressable reference: the fully-qualified identifier prefixed with
the fixed scheme token `resource:`. -/
def toURI (reg : Registry) (v : Value) : Option String :=
  match getFullyQualifiedIdentifier reg v with
  | some fq => some ("resource:" ++ fq)
  | none => none

/-- The short declared type name of an instance. -/
def getTypeName (v : Value) : String := shortName (tagOf v)

/-- The namespace of an instance's declared type. -/
def getNamespaceOf (v : Value) : String := namespaceOf (tagOf v)

/-- `instanceOf`: the instance's tagged type is the given qualified type or
derived from it. -/
def instanceOfQ (reg : Registry) (v : Value) (q : String) : Bool :=
  derives reg (tagOf v) q

/-! ## Validator construction

Modelled from the spec and the constructor test: an `ObjectValidator` is
constructed from a concerto instance (which owns the type registry) and the
options; construction without a concerto instance fails with
`Missing concerto instance`, so validation is never attempted against an
absent registry. -/

/-- A concerto instance: the owner of the type registry. -/
structure ConcertoInst where
  registry : Registry
deriving DecidableEq, Repr

/-- A constructed object validator: the concerto instance and the options. -/
structure ObjectValidator where
  concerto : ConcertoInst
  options : Options
deriving DecidableEq, Repr

/-- Construct an object validator; a missing concerto instance is rejected. -/
def mkObjectValidator (c : Option ConcertoInst) (opts : Options) :
    Except String ObjectValidator :=
  match c with
  | none => .error "Missing concerto instance"
  | some cc => .ok ⟨cc, opts⟩

/-! ## The test model of the ObjectValidator suite

The model file of the ObjectValidator test suite (`namespace test`):
`Wheel`, `Person identified by email`, `Manager identified`, `TestEnum`,
and `Vehicle` with its all-optional properties. -/

/-- `concept Wheel { o String brand }`. -/
def wheelDecl : TypeDecl :=
  ⟨"test", "Wheel", .classDecl none none
    [{ name := "brand", ptype := .prim .pString }]⟩

/-- `participant Person identified by email { o String email }`. -/
def personDecl : TypeDecl :=
  ⟨"test", "Person", .classDecl none (some "email")
    [{ name := "email", ptype := .prim .pString }]⟩

/-- `concept Manager identified { o String name }`: system-identified. -/
def managerDecl : TypeDecl :=
  ⟨"test", "Manager", .classDecl none (some "$identifier")
    [{ name := "name", ptype := .prim .pString }]⟩

/-- `enum TestEnum { o ONE o TWO o THREE }`. -/
def testEnumDecl : TypeDecl :=
  ⟨"test", "TestEnum", .enumDecl ["ONE", "TWO", "THREE"]⟩

/-- `concept Vehicle` with its optional scalar, array, validated, concept,
relationship and enum-array properties. -/
def vehicleDecl : TypeDecl :=
  ⟨"test", "Vehicle", .classDecl none none
    [{ name := "color", ptype := .prim .pString, isOptional := true },
     { name := "wheels", ptype := .classRef "test.Wheel", isArray := true,
       isOptional := true },
     { name := "stringProperty", ptype := .prim .pString, isOptional := true },
     { name := "integerProperty", ptype := .prim .pInteger, isOptional := true },
     { name := "booleanProperty", ptype := .prim .pBoolean, isOptional := true },
     { name := "dateTimeProperty", ptype := .prim .pDateTime, isOptional := true },
     { name := "validatedStringProperty", ptype := .prim .pString,
       isOptional := true, regexValidator := some "good" },
     { name := "owner", ptype := .classRef "test.Person", isOptional := true },
     { name := "previousOwners", ptype := .relRef "test.Person", isArray := true,
       isOptional := true },
     { name := "testEnums", ptype := .enumRef "test.TestEnum", isArray := true,
       isOptional := true },
     { name := "lastOwner", ptype := .relRef "test.Person", isOptional := true }]⟩

/-- The registry of the ObjectValidator test model. -/
def testReg : Registry :=
  ⟨[wheelDecl, personDecl, managerDecl, testEnumDecl, vehicleDecl]⟩

/-! ## The test model of the concerto utility suite -/

/-- `participant Person identified by ssn { o String ssn }` in namespace
`org.accordproject.test`. -/
def apPersonDecl : TypeDecl :=
  ⟨"org.accordproject.test", "Person", .classDecl none (some "ssn")
    [{ name := "ssn", ptype := .prim .pString }]⟩

/-- `participant Customer extends Person { o String customerId }`. -/
def apCustomerDecl : TypeDecl :=
  ⟨"org.accordproject.test", "Customer",
    .classDecl (some "org.accordproject.test.Person") none
    [{ name := "customerId", ptype := .prim .pString }]⟩

/-- The registry of the concerto utility test model. -/
def apReg : Registry := ⟨[apPersonDecl, apCustomerDecl]⟩

instance : DecidableEq (Except VError Unit) := fun a b =>
  match a, b with
  | .ok (), .ok () => isTrue rfl
  | .error e, .error f =>
    if h : e = f then isTrue (by rw [h])
    else isFalse (by intro hc; cases hc; exact h rfl)
  | .ok (), .error _ => isFalse (by intro hc; cases hc)
  | .error _, .ok () => isFalse (by intro hc; cases hc)

/-- A `Wheel` instance with the given brand. -/
def wheelOf (b : String) : Value := .vObject "test.Wheel" [("brand", .vString b)]

/-- A `Vehicle` instance with a scalar color and a list of wheels. -/
def vehicleOf (c : String) (ws : List String) : Value :=
  .vObject "test.Vehicle"
    [("color", .vString c), ("wheels", .vArray (ws.map wheelOf))]

/-- The declaration of the `owner` property of `Vehicle`. -/
def ownerProp : PropDecl :=
  { name := "owner", ptype := .classRef "test.Person", isOptional := true }

/-- The declaration of the `lastOwner` property of `Vehicle`. -/
def lastOwnerProp : PropDecl :=
  { name := "lastOwner", ptype := .relRef "test.Person", isOptional := true }

/-- A `Vehicle` instance with a single extra field. -/
def vehicleWith (n : String) (v : Value) : Value := .vObject "test.Vehicle" [(n, v)]

/-! ## Conformance

Modelled from the spec: the conformance condition of §8 ("tagged type is
the declared type or a subtype, all required properties present and
correctly typed"), spelled out property-kind by property-kind following
§4.2-§4.5, as a Boolean predicate independent of the engine's error
reporting. The soundness theorem below shows that the engine accepts
every conforming instance. -/

/-- Modelled from the spec (§4.3, §4.4): a scalar item of a
non-relationship property is correctly typed when a primitive value has
the declared runtime representation and matches any attached regex
validator, an enum value is a member of the enumeration, and a concept
value is an object whose resolvable tag is derived from the declared
target and which conforms recursively (through `recurse`). -/
def conformsItem (recurse : TypeDecl → Value → Bool) (reg : Registry)
    (prop : PropDecl) (v : Value) : Bool :=
  match prop.ptype with
  | .prim k =>
    checkPrimitiveKind k v &&
      (match k, prop.regexValidator, v with
       | .pString, some pat, .vString s => strContains s pat
       | _, _, _ => true)
  | .enumRef q =>
    (match resolve reg q with
     | some d =>
       (match d.body with
        | .enumDecl members =>
          (match v with
           | .vString s => members.contains s
           | _ => false)
        | .classDecl _ _ _ => false)
     | none => false)
  | .classRef q =>
    (match v with
     | .vObject tag _ =>
       (match resolve reg tag with
        | some d => derives reg tag q && recurse d v
        | none => false)
     | _ => false)
  | .relRef _ => false

/-- Modelled from the spec (§4.5): a relationship value is correctly typed
when it is an addressable reference whose referenced type resolves, is
identifiable and is derived from the declared target, or (only under
`permitResourcesForRelationships`) an inline resource passing the same
resolution, identifiability and derivation checks. -/
def conformsRel (reg : Registry) (opts : Options) (target : String)
    (v : Value) : Bool :=
  match v with
  | .vString s =>
    (match parseReference s with
     | some (_, qtype, _) =>
       (match resolve reg qtype with
        | some d => isIdentifiable reg d && derives reg qtype target
        | none => false)
     | none => false)
  | .vObject tag _ =>
    opts.permitResourcesForRelationships &&
      (match resolve reg tag with
       | some d => isIdentifiable reg d && derives reg tag target
       | none => false)
  | _ => false

/-- Modelled from the spec (§4.2 step 3): a present property value is
correctly typed when an array-declared property holds an array each of
whose elements is a correctly-typed item (or relationship), and a scalar
property holds one correctly-typed item (or relationship). -/
def conformsProp (recurse : TypeDecl → Value → Bool) (reg : Registry)
    (opts : Options) (prop : PropDecl) (v : Value) : Bool :=
  match prop.ptype with
  | .relRef q =>
    if prop.isArray then
      match v with
      | .vArray elems => elems.all (conformsRel reg opts q)
      | _ => false
    else conformsRel reg opts q v
  | _ =>
    if prop.isArray then
      match v with
      | .vArray elems => elems.all (conformsItem recurse reg prop)
      | _ => false
    else conformsItem recurse reg prop v

/-- Modelled from the spec (§4.2 step 3): every declared property is either
present and correctly typed, or absent and optional. -/
def conformsProps (recurse : TypeDecl → Value → Bool) (reg : Registry)
    (opts : Options) (fields : List (String × Value)) :
    List PropDecl → Bool
  | [] => true
  | p :: rest =>
    (match lookupField fields p.name with
     | none => p.isOptional
     | some v => conformsProp recurse reg opts p v) &&
    conformsProps recurse reg opts fields rest

/-- Modelled from the spec (§4.2, §8): an instance conforms to a
declaration when it is an object whose tagged type resolves and is the
declared type or a subtype of it, it carries no undeclared fields, and all
properties declared on its resolved runtime type check out; fuelled for
the recursion into nested concepts exactly as the engine is. -/
def conformsInst (reg : Registry) (opts : Options) :
    Nat → TypeDecl → Value → Bool
  | 0, _, _ => false
  | fuel + 1, decl, v =>
    match v with
    | .vObject tag fields =>
      (match resolve reg tag with
       | some runtime =>
         derives reg tag decl.qname &&
         (findUndeclared (allProps reg runtime) fields).isNone &&
         conformsProps (conformsInst reg opts fuel) reg opts fields
           (allProps reg runtime)
       | none => false)
    | _ => false

/-- The spec-level conformance predicate at the instance's own depth, the
same fuel `validate` runs the engine with. -/
def conforms (reg : Registry) (opts : Options) (decl : TypeDecl)
    (v : Value) : Bool :=
  conformsInst reg opts v.depth decl v

/-! ## Soundness of the engine on conforming instances -/

/-- A conforming scalar item passes the engine's item check, given that the
recursive checks agree. -/
theorem checkItem_ok_of_conforms
    (recB : TypeDecl → Value → Bool)
    (recV : TypeDecl → Value → Except VError Unit)
    (hrec : ∀ d w, recB d w = true → recV d w = .ok ())
    (reg : Registry) (prop : PropDecl) (v : Value)
    (h : conformsItem recB reg prop v = true) :
    checkItem recV reg prop v = .ok () := by
  obtain ⟨pname, pt, parr, popt, pval⟩ := prop
  cases pt with
  | prim k =>
    cases k <;> cases pval <;> cases v <;>
      simp_all [conformsItem, checkItem, checkPrimitiveKind]
  | enumRef q =>
    cases hres : resolve reg q with
    | none => simp_all [conformsItem]
    | some d =>
      cases hb : d.body with
      | enumDecl members =>
        cases v <;> simp_all [conformsItem, checkItem]
      | classDecl s i ps => simp_all [conformsItem]
  | classRef q =>
    cases v with
    | vObject tag fields =>
      cases hres : resolve reg tag with
      | none => simp_all [conformsItem]
      | some d =>
        simp only [conformsItem, hres, Bool.and_eq_true] at h
        simp [checkItem, hres, h.1]
        exact hrec _ _ h.2
    | vString s => simp_all [conformsItem]
    | vNum n => simp_all [conformsItem]
    | vBool b => simp_all [conformsItem]
    | vDateTime d => simp_all [conformsItem]
    | vSymbol d => simp_all [conformsItem]
    | vNull => simp_all [conformsItem]
    | vArray es => simp_all [conformsItem]
  | relRef q => simp_all [conformsItem]

/-- A conforming relationship value passes the engine's relationship check. -/
theorem checkRelationship_ok_of_conforms
    (reg : Registry) (opts : Options) (prop : PropDecl) (target : String)
    (v : Value) (h : conformsRel reg opts target v = true) :
    checkRelationship reg opts prop target v = .ok () := by
  cases v with
  | vString s =>
    cases hparse : parseReference s with
    | none => simp_all [conformsRel]
    | some t =>
      obtain ⟨scheme, qtype, ident⟩ := t
      cases hres : resolve reg qtype with
      | none => simp_all [conformsRel]
      | some d => simp_all [conformsRel, checkRelationship]
  | vObject tag fields =>
    cases hres : resolve reg tag with
    | none => simp_all [conformsRel]
    | some d => simp_all [conformsRel, checkRelationship]
  | vNum n => simp_all [conformsRel]
  | vBool b => simp_all [conformsRel]
  | vDateTime d => simp_all [conformsRel]
  | vSymbol d => simp_all [conformsRel]
  | vNull => simp_all [conformsRel]
  | vArray es => simp_all [conformsRel]

/-- Element-wise success lifts to the engine's array walk. -/
theorem checkEach_ok_of_all (f : Value → Bool) (g : Value → Except VError Unit)
    (hfg : ∀ v, f v = true → g v = .ok ()) (l : List Value)
    (h : ∀ x ∈ l, f x = true) : checkEach g l = .ok () := by
  induction l with
  | nil => rfl
  | cons v rest ih =>
    simp [checkEach, hfg v (h v (by simp)), ih (fun x hx => h x (by simp [hx]))]

/-- A conforming property value passes the engine's property check. -/
theorem checkProperty_ok_of_conforms
    (recB : TypeDecl → Value → Bool)
    (recV : TypeDecl → Value → Except VError Unit)
    (hrec : ∀ d w, recB d w = true → recV d w = .ok ())
    (reg : Registry) (opts : Options) (prop : PropDecl) (v : Value)
    (h : conformsProp recB reg opts prop v = true) :
    checkProperty recV reg opts prop v = .ok () := by
  have hitem := checkItem_ok_of_conforms recB recV hrec reg
  cases hp : prop.ptype with
  | relRef q =>
    cases ha : prop.isArray with
    | false =>
      simp only [conformsProp, hp, ha, if_neg] at h
      simp only [checkProperty, hp, ha, if_neg]
      exact checkRelationship_ok_of_conforms reg opts prop q v h
    | true =>
      cases v <;> simp_all [conformsProp, checkProperty]
      case vArray es =>
        exact checkEach_ok_of_all _ _
          (fun w hw => checkRelationship_ok_of_conforms reg opts prop q w hw)
          es h
  | prim k =>
    cases ha : prop.isArray with
    | false =>
      simp only [conformsProp, hp, ha, if_neg] at h
      simp only [checkProperty, hp, ha, if_neg]
      exact hitem prop v h
    | true =>
      cases v <;> simp_all [conformsProp, checkProperty]
      case vArray es =>
        exact checkEach_ok_of_all _ _ (fun w hw => hitem prop w hw) es h
  | enumRef q =>
    cases ha : prop.isArray with
    | false =>
      simp only [conformsProp, hp, ha, if_neg] at h
      simp only [checkProperty, hp, ha, if_neg]
      exact hitem prop v h
    | true =>
      cases v <;> simp_all [conformsProp, checkProperty]
      case vArray es =>
        exact checkEach_ok_of_all _ _ (fun w hw => hitem prop w hw) es h
  | classRef q =>
    cases ha : prop.isArray with
    | false =>
      simp only [conformsProp, hp, ha, if_neg] at h
      simp only [checkProperty, hp, ha, if_neg]
      exact hitem prop v h
    | true =>
      cases v <;> simp_all [conformsProp, checkProperty]
      case vArray es =>
        exact checkEach_ok_of_all _ _ (fun w hw => hitem prop w hw) es h

/-- A conforming property walk passes the engine's property walk. -/
theorem checkProps_ok_of_conforms
    (recB : TypeDecl → Value → Bool)
    (recV : TypeDecl → Value → Except VError Unit)
    (hrec : ∀ d w, recB d w = true → recV d w = .ok ())
    (reg : Registry) (opts : Options) (fields : List (String × Value))
    (props : List PropDecl)
    (h : conformsProps recB reg opts fields props = true) :
    checkProps recV reg opts fields props = .ok () := by
  induction props with
  | nil => rfl
  | cons p rest ih =>
    simp only [conformsProps, Bool.and_eq_true] at h
    cases hl : lookupField fields p.name with
    | none =>
      rw [hl] at h
      have h1 : p.isOptional = true := h.1
      simp [checkProps, hl, h1, ih h.2]
    | some v =>
      rw [hl] at h
      have h1 : conformsProp recB reg opts p v = true := h.1
      simp [checkProps, hl,
        checkProperty_ok_of_conforms recB recV hrec reg opts p v h1, ih h.2]

/-- At every fuel, the engine accepts every instance the conformance
predicate accepts at that fuel. -/
theorem visitDecl_ok_of_conforms (reg : Registry) (opts : Options) :
    ∀ (fuel : Nat) (decl : TypeDecl) (v : Value),
      conformsInst reg opts fuel decl v = true →
      visitDecl reg opts fuel decl v = .ok () := by
  intro fuel
  induction fuel with
  | zero => intro decl v h; simp [conformsInst] at h
  | succ fuel ih =>
    intro decl v h
    cases v with
    | vObject tag fields =>
      cases hres : resolve reg tag with
      | none => simp_all [conformsInst]
      | some runtime =>
        simp only [conformsInst, hres, Bool.and_eq_true] at h
        obtain ⟨⟨hder, hund⟩, hprops⟩ := h
        simp only [visitDecl, hres, hder, if_pos]
        rw [Option.isNone_iff_eq_none] at hund
        rw [hund]
        exact checkProps_ok_of_conforms _ _ ih reg opts fields _ hprops
    | vString s => simp_all [conformsInst]
    | vNum n => simp_all [conformsInst]
    | vBool b => simp_all [conformsInst]
    | vDateTime d => simp_all [conformsInst]
    | vSymbol d => simp_all [conformsInst]
    | vNull => simp_all [conformsInst]
    | vArray es => simp_all [conformsInst]

/-- C1: For every instance whose tagged type is the declared type or a
subtype of it, with all required properties present and correctly typed
(the spec-level conformance predicate `conforms`, covering every property
kind, cardinality and optionality rule of §4.2-§4.5), validation succeeds
and raises no error — over every registry, option set, declaration and
instance. -/
theorem c1_conforming_instances_validate (reg : Registry) (opts : Options)
    (decl : TypeDecl) (v : Value) (h : conforms reg opts decl v = true) :
    validate reg opts decl v = .ok () :=
  visitDecl_ok_of_conforms reg opts v.depth decl v h

/-- C1 witness: the concrete scenario of the test suite — a Vehicle with
scalar color `red` and nested wheels `[{$class: test.Wheel, brand:
Michelin}]` — conforms and validates with no error, and an instance
tagged with the proper subtype `Customer` conforms to and validates
against the declared type `Person`. -/
theorem c1_w :
    conforms testReg {} vehicleDecl (vehicleOf "red" ["Michelin"]) = true ∧
    validate testReg {} vehicleDecl (vehicleOf "red" ["Michelin"]) = .ok () ∧
    conforms apReg {} apPersonDecl (.vObject "org.accordproject.test.Customer"
      [("customerId", .vString "001"), ("ssn", .vString "123456789")]) = true ∧
    validate apReg {} apPersonDecl (.vObject "org.accordproject.test.Customer"
      [("customerId", .vString "001"), ("ssn", .vString "123456789")]) =
      .ok () := by
  refine ⟨by decide, c1_conforming_instances_validate testReg {} vehicleDecl _
    (by decide), by decide,
    c1_conforming_instances_validate apReg {} apPersonDecl _ (by decide)⟩

/-- C2: For every nested declared-type (concept) property, if the value's
tagged type resolves but is not derived from the property's declared target
type, validation fails with an error naming the offending concrete type and
the expected base (the message contains the offending tag and
`not derived from <target>`). -/
theorem c2_nested_concept_not_derived
    (recurse : TypeDecl → Value → Except VError Unit) (reg : Registry)
    (prop : PropDecl) (q tag : String) (fields : List (String × Value))
    (d : TypeDecl) (hk : prop.ptype = .classRef q)
    (hres : resolve reg tag = some d) (hder : derives reg tag q = false) :
    checkItem recurse reg prop (.vObject tag fields) =
      .error (.notDerivedProperty prop.name tag q) ∧
    strContains (VError.message (.notDerivedProperty prop.name tag q)) tag = true ∧
    strContains (VError.message (.notDerivedProperty prop.name tag q))
      ("not derived from " ++ q) = true := by
  refine ⟨by simp [checkItem, hk, hres, hder], ?_, ?_⟩
  · show strContains ("Instance undefined has property " ++ prop.name ++
      " with type " ++ tag ++ " that is " ++ "not derived from " ++ q) tag = true
    exact strContains_extend _ _ _ (strContains_extend _ _ _
      (strContains_extend _ _ _ (strContains_suffix _ tag)))
  · show strContains ("Instance undefined has property " ++ prop.name ++
      " with type " ++ tag ++ " that is " ++ "not derived from " ++ q)
      ("not derived from " ++ q) = true
    rw [String.append_assoc]
    exact strContains_suffix _ _

/-- C2 witness: `Vehicle.owner` declared as `test.Person` given a value
tagged `test.Wheel` fails, and the message matches
`test.Wheel that is not derived from test.Person`. -/
theorem c2_w :
    validate testReg {} vehicleDecl
        (vehicleWith "owner" (wheelOf "Michelin")) =
      .error (.notDerivedProperty "owner" "test.Wheel" "test.Person") ∧
    strContains
      (VError.message (.notDerivedProperty "owner" "test.Wheel" "test.Person"))
      "test.Wheel that is not derived from test.Person" = true ∧
    checkItem (fun _ _ => Except.ok ()) testReg ownerProp (wheelOf "Michelin") =
      .error (.notDerivedProperty "owner" "test.Wheel" "test.Person") := by
  refine ⟨by decide, by decide, ?_⟩
  exact (c2_nested_concept_not_derived (fun _ _ => Except.ok ()) testReg
    ownerProp "test.Person" "test.Wheel" [("brand", .vString "Michelin")]
    wheelDecl rfl (by decide) (by decide)).1

/-- C3: For every relationship property value in reference form
(`scheme:QualifiedType#identifier`), the referenced type must resolve, be
identifiable (else `Relationship can only be to identified types`), and be
derived from the property's declared target (else a message matching
`not derived from <target>`); when all three hold, the check succeeds. -/
theorem c3_relationship_reference_checks
    (reg : Registry) (opts : Options) (prop : PropDecl) (target s : String)
    (scheme qtype ident : String) (d : TypeDecl)
    (hparse : parseReference s = some (scheme, qtype, ident))
    (hres : resolve reg qtype = some d) :
    (isIdentifiable reg d = false →
      checkRelationship reg opts prop target (.vString s) =
        .error (.nonIdentifiableTarget prop.name) ∧
      strContains (VError.message (.nonIdentifiableTarget prop.name))
        "Relationship can only be to identified types" = true) ∧
    (isIdentifiable reg d = true → derives reg qtype target = false →
      checkRelationship reg opts prop target (.vString s) =
        .error (.notDerivedProperty prop.name qtype target) ∧
      strContains (VError.message (.notDerivedProperty prop.name qtype target))
        ("not derived from " ++ target) = true) ∧
    (isIdentifiable reg d = true → derives reg qtype target = true →
      checkRelationship reg opts prop target (.vString s) = .ok ()) := by
  refine ⟨fun hid => ⟨?_, ?_⟩, fun hid hder => ⟨?_, ?_⟩, fun hid hder => ?_⟩
  · simp [checkRelationship, hparse, hres, hid]
  · show strContains ("Instance undefined has property " ++ prop.name ++ ": " ++
      "Relationship can only be to identified types")
      "Relationship can only be to identified types" = true
    exact strContains_suffix _ _
  · simp [checkRelationship, hparse, hres, hid, hder]
  · show strContains ("Instance undefined has property " ++ prop.name ++
      " with type " ++ qtype ++ " that is " ++ "not derived from " ++ target)
      ("not derived from " ++ target) = true
    rw [String.append_assoc]
    exact strContains_suffix _ _
  · simp [checkRelationship, hparse, hres, hid, hder]

/-- C3 witness: a reference to `resource:test.Wheel#Michelin` (Wheel is not
identifiable) fails with the non-identifiable error, and a reference to
`resource:test.Manager#Dan` (Manager is identifiable but not derived from
Person) fails with the not-derived error, both at the relationship check
and through `validate`. -/
theorem c3_w :
    validate testReg {} vehicleDecl
        (vehicleWith "lastOwner" (.vString "resource:test.Wheel#Michelin")) =
      .error (.nonIdentifiableTarget "lastOwner") ∧
    validate testReg {} vehicleDecl
        (vehicleWith "lastOwner" (.vString "resource:test.Manager#Dan")) =
      .error (.notDerivedProperty "lastOwner" "test.Manager" "test.Person") ∧
    checkRelationship testReg {} lastOwnerProp "test.Person"
        (.vString "resource:test.Wheel#Michelin") =
      .error (.nonIdentifiableTarget "lastOwner") ∧
    checkRelationship testReg {} lastOwnerProp "test.Person"
        (.vString "resource:test.Manager#Dan") =
      .error (.notDerivedProperty "lastOwner" "test.Manager" "test.Person") := by
  refine ⟨by decide, by decide, ?_, ?_⟩
  · exact ((c3_relationship_reference_checks testReg {} lastOwnerProp
      "test.Person" "resource:test.Wheel#Michelin" "resource" "test.Wheel"
      "Michelin" wheelDecl (by decide) (by decide)).1 (by decide)).1
  · exact (((c3_relationship_reference_checks testReg {} lastOwnerProp
      "test.Person" "resource:test.Manager#Dan" "resource" "test.Manager"
      "Dan" managerDecl (by decide) (by decide)).2.1 (by decide) (by decide)).1)

/-- C4: With `permitResourcesForRelationships = false` (the default), a
relationship property whose value is an inline resource fails with
`expected a Relationship`; with the flag set, the same inline value passes
provided the type resolves, is identifiable and is derived from the
declared target. -/
theorem c4_inline_resource_policy
    (reg : Registry) (prop : PropDecl) (target tag : String)
    (fields : List (String × Value)) (d : TypeDecl)
    (hres : resolve reg tag = some d) (hid : isIdentifiable reg d = true)
    (hder : derives reg tag target = true) :
    checkRelationship reg { permitResourcesForRelationships := false } prop
        target (.vObject tag fields) =
      .error (.invalidRelationshipEncoding prop.name) ∧
    strContains (VError.message (.invalidRelationshipEncoding prop.name))
      "expected a Relationship" = true ∧
    checkRelationship reg { permitResourcesForRelationships := true } prop
        target (.vObject tag fields) = .ok () := by
  refine ⟨by simp [checkRelationship], ?_,
    by simp [checkRelationship, hres, hid, hder]⟩
  show strContains ("Instance undefined has property " ++ prop.name ++ ", " ++
    "expected a Relationship") "expected a Relationship" = true
  exact strContains_suffix _ _

/-- The inline `test.Person` resource of the relationship tests. -/
def inlineOwner : Value :=
  .vObject "test.Person" [("email", .vString "test@example.com")]

/-- C4 witness: the inline `test.Person` value at `Vehicle.lastOwner` fails
with `expected a Relationship` under the default options and validates with
no error when `permitResourcesForRelationships` is set. -/
theorem c4_w :
    validate testReg { permitResourcesForRelationships := false } vehicleDecl
        (vehicleWith "lastOwner" inlineOwner) =
      .error (.invalidRelationshipEncoding "lastOwner") ∧
    validate testReg { permitResourcesForRelationships := true } vehicleDecl
        (vehicleWith "lastOwner" inlineOwner) = .ok () ∧
    checkRelationship testReg { permitResourcesForRelationships := false }
        lastOwnerProp "test.Person" inlineOwner =
      .error (.invalidRelationshipEncoding "lastOwner") := by
  refine ⟨by decide, by decide, ?_⟩
  exact (c4_inline_resource_policy testReg lastOwnerProp "test.Person"
    "test.Person" [("email", .vString "test@example.com")] personDecl
    (by decide) (by decide) (by decide)).1

/-- C5: For every array-declared property given a non-array value, the
property check fails with a cardinality-mismatch error whose message names
the expected bracketed type `T[]`. -/
theorem c5_array_cardinality
    (recurse : TypeDecl → Value → Except VError Unit) (reg : Registry)
    (opts : Options) (prop : PropDecl) (v : Value)
    (ha : prop.isArray = true) (hv : v.isArrayValue = false) :
    ∃ e, checkProperty recurse reg opts prop v = .error e ∧
      e.isCardinality = true ∧
      strContains e.message (scalarTypeName prop.ptype ++ "[]") = true := by
  cases hp : prop.ptype with
  | relRef q =>
    refine ⟨.relCardinalityMismatch prop.name q, ?_, rfl, ?_⟩
    · cases v <;> simp_all [checkProperty, Value.isArrayValue, scalarTypeName]
    · show strContains (("Instance undefined has property " ++ prop.name ++
        " with type undefined that is " ++ "not derived from ") ++ q ++ "[]")
        (q ++ "[]") = true
      rw [String.append_assoc]
      exact strContains_suffix _ _
  | prim k =>
    refine ⟨.cardinalityMismatch prop.name (primName k), ?_, rfl, ?_⟩
    · cases v <;> simp_all [checkProperty, Value.isArrayValue, scalarTypeName]
    · show strContains (("Instance undefined has property " ++ prop.name ++
        " with an invalid value, " ++ "expected type ") ++ primName k ++ "[]")
        (scalarTypeName (.prim k) ++ "[]") = true
      rw [String.append_assoc]
      exact strContains_suffix _ _
  | enumRef q =>
    refine ⟨.cardinalityMismatch prop.name (shortName q), ?_, rfl, ?_⟩
    · cases v <;> simp_all [checkProperty, Value.isArrayValue, scalarTypeName]
    · show strContains (("Instance undefined has property " ++ prop.name ++
        " with an invalid value, " ++ "expected type ") ++ shortName q ++ "[]")
        (scalarTypeName (.enumRef q) ++ "[]") = true
      rw [String.append_assoc]
      exact strContains_suffix _ _
  | classRef q =>
    refine ⟨.cardinalityMismatch prop.name (shortName q), ?_, rfl, ?_⟩
    · cases v <;> simp_all [checkProperty, Value.isArrayValue, scalarTypeName]
    · show strContains (("Instance undefined has property " ++ prop.name ++
        " with an invalid value, " ++ "expected type ") ++ shortName q ++ "[]")
        (scalarTypeName (.classRef q) ++ "[]") = true
      rw [String.append_assoc]
      exact strContains_suffix _ _

/-- The declaration of the `testEnums` property of `Vehicle`. -/
def testEnumsProp : PropDecl :=
  { name := "testEnums", ptype := .enumRef "test.TestEnum", isArray := true,
    isOptional := true }

/-- C5 witness: `Vehicle.testEnums : TestEnum[]` given the scalar `ONE`
fails with a message containing `expected type TestEnum[]`, and the
array-declared relationship `previousOwners` given the scalar `bad` fails
with the exact test-suite message naming `test.Person[]`. -/
theorem c5_w :
    validate testReg {} vehicleDecl (vehicleWith "testEnums" (.vString "ONE")) =
      .error (.cardinalityMismatch "testEnums" "TestEnum") ∧
    strContains (VError.message (.cardinalityMismatch "testEnums" "TestEnum"))
      "expected type TestEnum[]" = true ∧
    validate testReg {} vehicleDecl
        (vehicleWith "previousOwners" (.vString "bad")) =
      .error (.relCardinalityMismatch "previousOwners" "test.Person") ∧
    VError.message (.relCardinalityMismatch "previousOwners" "test.Person") =
      ("Instance undefined has property previousOwners with type undefined " ++
        "that is not derived from test.Person[]") ∧
    (∃ e, checkProperty (fun _ _ => Except.ok ()) testReg {} testEnumsProp
        (.vString "ONE") = .error e ∧ e.isCardinality = true ∧
      strContains e.message (scalarTypeName testEnumsProp.ptype ++ "[]") = true) := by
  refine ⟨by decide, by decide, by decide, by decide, ?_⟩
  exact c5_array_cardinality (fun _ _ => Except.ok ()) testReg {} testEnumsProp
    (.vString "ONE") rfl rfl

/-- C6: For every property whose runtime value's kind disagrees with its
declared primitive kind, the item check fails with a type-mismatch error
naming the declared primitive (`expected type <Primitive>`). -/
theorem c6_primitive_kind_mismatch
    (recurse : TypeDecl → Value → Except VError Unit) (reg : Registry)
    (prop : PropDecl) (k : PrimKind) (v : Value)
    (hk : prop.ptype = .prim k) (hck : checkPrimitiveKind k v = false) :
    checkItem recurse reg prop v = .error (.typeMismatch prop.name (primName k)) ∧
    strContains (VError.message (.typeMismatch prop.name (primName k)))
      ("expected type " ++ primName k) = true := by
  refine ⟨by simp [checkItem, hk, hck], ?_⟩
  show strContains (("Instance undefined has property " ++ prop.name ++
    " with an invalid value, ") ++ "expected type " ++ primName k)
    ("expected type " ++ primName k) = true
  rw [String.append_assoc]
  exact strContains_suffix _ _

/-- The declaration of the `integerProperty` property of `Vehicle`. -/
def integerProp : PropDecl :=
  { name := "integerProperty", ptype := .prim .pInteger, isOptional := true }

/-- C6 witness: the string `bad` at the Integer property fails with
`expected type Integer`; a symbol or a number at a String property fails
with `expected type String`; the string `false` at the Boolean property
fails with `expected type Boolean`. -/
theorem c6_w :
    validate testReg {} vehicleDecl
        (vehicleWith "integerProperty" (.vString "bad")) =
      .error (.typeMismatch "integerProperty" "Integer") ∧
    validate testReg {} vehicleDecl
        (vehicleWith "stringProperty" (.vSymbol "foo")) =
      .error (.typeMismatch "stringProperty" "String") ∧
    validate testReg {} vehicleDecl
        (vehicleWith "stringProperty" (.vNum 1)) =
      .error (.typeMismatch "stringProperty" "String") ∧
    validate testReg {} vehicleDecl
        (vehicleWith "booleanProperty" (.vString "false")) =
      .error (.typeMismatch "booleanProperty" "Boolean") ∧
    checkItem (fun _ _ => Except.ok ()) testReg integerProp (.vString "bad") =
      .error (.typeMismatch "integerProperty" "Integer") := by
  refine ⟨by decide, by decide, by decide, by decide, ?_⟩
  exact (c6_primitive_kind_mismatch (fun _ _ => Except.ok ()) testReg
    integerProp .pInteger (.vString "bad") rfl (by decide)).1

/-- C7: Whenever an instance's tagged type (at the class level or as the
tag of a nested concept value) does not resolve in the registry, validation
fails with a `type not defined` error naming the missing type and the
namespace the lookup was attempted against. -/
theorem c7_unresolved_type
    (reg : Registry) (opts : Options) (fuel : Nat) (decl : TypeDecl)
    (recurse : TypeDecl → Value → Except VError Unit) (prop : PropDecl)
    (q tag : String) (fields : List (String × Value))
    (hres : resolve reg tag = none) (hk : prop.ptype = .classRef q) :
    visitDecl reg opts (fuel + 1) decl (.vObject tag fields) =
      .error (.typeNotFound (shortName tag) (namespaceOf tag)) ∧
    checkItem recurse reg prop (.vObject tag fields) =
      .error (.typeNotFound (shortName tag) (namespaceOf tag)) ∧
    VError.message (.typeNotFound (shortName tag) (namespaceOf tag)) =
      "Type " ++ shortName tag ++ " is not defined in namespace " ++
        namespaceOf tag :=
  ⟨by simp [visitDecl, hres], by simp [checkItem, hk, hres], rfl⟩

/-- C7 witness: a nested value tagged `test.Missing` fails with the exact
message `Type Missing is not defined in namespace test`. -/
theorem c7_w :
    validate testReg {} vehicleDecl
        (vehicleWith "owner"
          (.vObject "test.Missing" [("brand", .vString "Michelin")])) =
      .error (.typeNotFound "Missing" "test") ∧
    VError.message (.typeNotFound "Missing" "test") =
      "Type Missing is not defined in namespace test" ∧
    checkItem (fun _ _ => Except.ok ()) testReg ownerProp
        (.vObject "test.Missing" [("brand", .vString "Michelin")]) =
      .error (.typeNotFound "Missing" "test") := by
  refine ⟨by decide, by decide, ?_⟩
  have h := (c7_unresolved_type testReg {} 0 vehicleDecl
    (fun _ _ => Except.ok ()) ownerProp "test.Person" "test.Missing"
    [("brand", .vString "Michelin")] (by decide) rfl).2.1
  simpa using h

/-- C8: For every string-kind property carrying a regex validator, once the
value is a string the item check succeeds exactly when the value matches
the pattern, and on non-match fails with a message containing
`failed to match validation regex: /pattern/`. -/
theorem c8_regex_validator
    (recurse : TypeDecl → Value → Except VError Unit) (reg : Registry)
    (prop : PropDecl) (pat s : String)
    (hk : prop.ptype = .prim .pString) (hv : prop.regexValidator = some pat) :
    (checkItem recurse reg prop (.vString s) = .ok () ↔
      strContains s pat = true) ∧
    (strContains s pat = false →
      checkItem recurse reg prop (.vString s) =
        .error (.validatorFailed prop.name pat) ∧
      strContains (VError.message (.validatorFailed prop.name pat))
        ("failed to match validation regex: /" ++ pat ++ "/") = true) := by
  constructor
  · cases hsp : strContains s pat <;>
      simp [checkItem, hk, hv, checkPrimitiveKind, hsp]
  · intro h
    refine ⟨by simp [checkItem, hk, hv, checkPrimitiveKind, h], ?_⟩
    show strContains (("Instance undefined has property " ++ prop.name ++
      " that ") ++ "failed to match validation regex: /" ++ pat ++ "/")
      (("failed to match validation regex: /" ++ pat) ++ "/") = true
    rw [String.append_assoc, String.append_assoc]
    exact strContains_suffix _ _

/-- The declaration of the `validatedStringProperty` property of `Vehicle`,
with its `regex=/good/` validator. -/
def validatedStringProp : PropDecl :=
  { name := "validatedStringProperty", ptype := .prim .pString,
    isOptional := true, regexValidator := some "good" }

/-- C8 witness: the value `bad` fails the `/good/` validator with the
message `failed to match validation regex: /good/`, and a matching value
validates with no error. -/
theorem c8_w :
    validate testReg {} vehicleDecl
        (vehicleWith "validatedStringProperty" (.vString "bad")) =
      .error (.validatorFailed "validatedStringProperty" "good") ∧
    strContains
      (VError.message (.validatorFailed "validatedStringProperty" "good"))
      "failed to match validation regex: /good/" = true ∧
    validate testReg {} vehicleDecl
        (vehicleWith "validatedStringProperty" (.vString "so good!")) =
      .ok () ∧
    checkItem (fun _ _ => Except.ok ()) testReg validatedStringProp
        (.vString "bad") =
      .error (.validatorFailed "validatedStringProperty" "good") := by
  refine ⟨by decide, by decide, by decide, ?_⟩
  exact ((c8_regex_validator (fun _ _ => Except.ok ()) testReg
    validatedStringProp "good" "bad" rfl rfl).2 (by decide)).1

/-- C9: For every identifiable instance, the fully-qualified identifier is
the qualified type name joined to the identifying value by `#`, and the
addressable reference (`toURI`) is exactly that identifier prefixed with
the fixed scheme token `resource:`. -/
theorem c9_addressable_reference
    (reg : Registry) (tag : String) (fields : List (String × Value))
    (id : String)
    (h : getIdentifierValue reg (.vObject tag fields) = some id) :
    getFullyQualifiedIdentifier reg (.vObject tag fields) =
      some (tag ++ "#" ++ id) ∧
    toURI reg (.vObject tag fields) = some ("resource:" ++ (tag ++ "#" ++ id)) ∧
    toURI reg (.vObject tag fields) =
      (getFullyQualifiedIdentifier reg (.vObject tag fields)).map
        (fun fq => "resource:" ++ fq) := by
  simp [getFullyQualifiedIdentifier, toURI, h]

/-- The `org.accordproject.test.Person` instance of the utility tests. -/
def apPersonInst : Value :=
  .vObject "org.accordproject.test.Person"
    [("ssn", .vString "123456789"), ("name", .vString "Dan Selman")]

/-- C9 witness: the Person instance's fully-qualified identifier is
`org.accordproject.test.Person#123456789` and its URI is that identifier
prefixed with `resource:`. -/
theorem c9_w :
    getFullyQualifiedIdentifier apReg apPersonInst =
      some "org.accordproject.test.Person#123456789" ∧
    toURI apReg apPersonInst =
      some "resource:org.accordproject.test.Person#123456789" ∧
    getIdentifierValue apReg apPersonInst = some "123456789" ∧
    toURI apReg apPersonInst =
      (getFullyQualifiedIdentifier apReg apPersonInst).map
        (fun fq => "resource:" ++ fq) := by
  refine ⟨by decide, by decide, by decide, ?_⟩
  exact (c9_addressable_reference apReg "org.accordproject.test.Person"
    [("ssn", .vString "123456789"), ("name", .vString "Dan Selman")]
    "123456789" (by decide)).2.2

/-- C10: Constructing an object validator without a concerto instance fails
with a message containing `Missing concerto instance`, and construction
with a concerto instance succeeds, carrying that instance (and hence its
type registry) in the resulting validator. -/
theorem c10_validator_construction (opts : Options) (c : ConcertoInst) :
    (∃ msg, mkObjectValidator none opts = .error msg ∧
      strContains msg "Missing concerto instance" = true) ∧
    mkObjectValidator (some c) opts = .ok ⟨c, opts⟩ :=
  ⟨⟨"Missing concerto instance", rfl, by decide⟩, rfl⟩

end Concerto
